import Mathlib

/-!
Shallow embedding of the `pool` package (src/pool/pool.go): a bounded pool
of reusable resources backed by a buffered channel, a factory function and
a closed flag guarded by a mutex.

Resources are identified by natural-number ids.  The buffered channel is a
FIFO list together with a `chanClosed` flag (Go `close(ch)`); the pool's
own `closed` field mirrors `Pool.closed`.  Each invocation of a resource's
`Close()` method is recorded in the `closedEvents` trace; the error value a
resource's `Close()` returns is supplied by an ambient `rclose` function and
is discarded by the pool exactly as the Go code discards it.  Factory calls
are counted in `factoryCalls`, and the value the factory would produce is
passed to `acquire` as an explicit argument.  `release` returns `none` to
model the send-on-closed-channel runtime panic, which is otherwise
unreachable (proved below).  `Release`/`Close` run under one mutex and
`Acquire` only performs a single atomic channel operation, so operations are
modelled as atomic steps on the state.
-/

namespace PoolSpec

/-- A pooled resource, identified by an id.  Its `Close()` capability is
modelled by the trace of close events plus an ambient error function. -/
abbrev Resource := Nat

/-- State of a `Pool` (struct `Pool` in pool.go) together with the
observable history needed by the properties: `buffer`/`chanClosed` model
the buffered channel `resources`, `closed` is the shutdown flag,
`closedEvents` records every invocation of a resource's `Close()`, and
`factoryCalls` counts invocations of `factory`. -/
structure PoolState where
  capacity : Nat
  buffer : List Resource
  chanClosed : Bool
  closed : Bool
  closedEvents : List Resource
  factoryCalls : Nat
deriving DecidableEq

/-- Error returned by `New` when the size is not positive
("size value too small"). -/
inductive NewError where
  | invalidConfiguration
deriving DecidableEq

/-- Errors `Acquire` can return: `ErrPoolClosed`, or whatever error the
factory produced, passed through verbatim. -/
inductive AcquireError where
  | poolClosed
  | factoryError (e : Nat)
deriving DecidableEq

/-- `New(fn, size)`: rejects `size <= 0` (a `uint` in Go, hence `Nat`),
otherwise allocates an empty buffer of capacity `size`.  The factory is
stored, never invoked. -/
def new (size : Nat) : Except NewError PoolState :=
  if size ≤ 0 then
    Except.error NewError.invalidConfiguration
  else
    Except.ok
      { capacity := size, buffer := [], chanClosed := false,
        closed := false, closedEvents := [], factoryCalls := 0 }

/-- Embeds the factory's `(io.Closer, error)` result into `Acquire`'s
result type, component by component. -/
def liftFactory : Except Nat Resource → Except AcquireError Resource
  | Except.ok r => Except.ok r
  | Except.error e => Except.error (AcquireError.factoryError e)

/-- `Acquire()`: a non-blocking `select` on the channel.  A buffered value
is delivered first (`ok = true`); an empty closed channel delivers the
terminal signal (`ok = false`), translated to `ErrPoolClosed`; otherwise
the `default` branch calls the factory, whose pending result is the
argument `fres`. -/
def acquire (s : PoolState) (fres : Except Nat Resource) :
    Except AcquireError Resource × PoolState :=
  match s.buffer with
  | r :: rest => (Except.ok r, { s with buffer := rest })
  | [] =>
    if s.chanClosed then
      (Except.error AcquireError.poolClosed, s)
    else
      (liftFactory fres, { s with factoryCalls := s.factoryCalls + 1 })

/-- One invocation of `r.Close()`: appends the event to the trace and
yields the error the resource reports.  The pool always discards the
second component, as `r.Close()`'s result is discarded in the Go code. -/
def resClose (rclose : Resource → Except Nat Unit) (events : List Resource)
    (r : Resource) : List Resource × Except Nat Unit :=
  (events ++ [r], rclose r)

/-- `Release(r)`: under the mutex, a closed pool discards the resource via
its `Close()`; otherwise a non-blocking `select` sends into the channel
when there is spare capacity and discards via `Close()` when full.
Sending on a closed channel is a runtime panic, modelled as `none`. -/
def release (rclose : Resource → Except Nat Unit) (s : PoolState)
    (r : Resource) : Option PoolState :=
  if s.closed then
    some { s with closedEvents := (resClose rclose s.closedEvents r).1 }
  else if s.chanClosed then
    none
  else if s.buffer.length < s.capacity then
    some { s with buffer := s.buffer ++ [r] }
  else
    some { s with closedEvents := (resClose rclose s.closedEvents r).1 }

/-- The drain loop `for r := range p.resources { r.Close() }`: every
buffered resource has `Close()` invoked in order, regardless of the error
any earlier `Close()` reported. -/
def drainAll (rclose : Resource → Except Nat Unit) (events : List Resource) :
    List Resource → List Resource
  | [] => events
  | r :: rest => drainAll rclose (resClose rclose events r).1 rest

/-- `close(p.resources)`: marks the channel closed. -/
def closeChannel (s : PoolState) : PoolState :=
  { s with chanClosed := true }

/-- Draining the channel: empties the buffer, invoking `Close()` on each
buffered resource. -/
def drainChannel (rclose : Resource → Except Nat Unit) (s : PoolState) :
    PoolState :=
  { s with buffer := [],
           closedEvents := drainAll rclose s.closedEvents s.buffer }

/-- `Close()`: under the mutex, a no-op when already closed; otherwise
sets `closed`, closes the channel, then drains it. -/
def close (rclose : Resource → Except Nat Unit) (s : PoolState) : PoolState :=
  if s.closed then s
  else drainChannel rclose (closeChannel { s with closed := true })

/-- A resource-close function that always succeeds; used for concrete
scenarios. -/
def noFailClose : Resource → Except Nat Unit := fun _ => Except.ok ()

/-- A resource-close function that always fails; used to exercise the
disposal-error claims on concrete scenarios. -/
def alwaysFailClose : Resource → Except Nat Unit := fun _ => Except.error 7

/-- States reachable through the pool's API, starting from `New` and
stepping by `Acquire`, `Release` (when it does not panic) and `Close`. -/
inductive Reachable : PoolState → Prop where
  | init (size : Nat) (s : PoolState) : new size = Except.ok s → Reachable s
  | stepAcquire (s : PoolState) (fres : Except Nat Resource) :
      Reachable s → Reachable (acquire s fres).2
  | stepRelease (s : PoolState) (rclose : Resource → Except Nat Unit)
      (r : Resource) (t : PoolState) :
      Reachable s → release rclose s r = some t → Reachable t
  | stepClose (s : PoolState) (rclose : Resource → Except Nat Unit) :
      Reachable s → Reachable (close rclose s)

/-- The drain loop appends every buffered resource, in order, to the close
trace. -/
theorem drainAll_eq (rclose : Resource → Except Nat Unit) :
    ∀ buf events, drainAll rclose events buf = events ++ buf := by
  intro buf
  induction buf with
  | nil => intro events; simp [drainAll]
  | cons r rest ih =>
      intro events
      simp [drainAll, resClose, ih]

/-- `acquire` never changes the capacity, the flags, or the close trace. -/
theorem acquire_preserves (s : PoolState) (fres : Except Nat Resource) :
    (acquire s fres).2.capacity = s.capacity ∧
    (acquire s fres).2.closed = s.closed ∧
    (acquire s fres).2.chanClosed = s.chanClosed ∧
    (acquire s fres).2.closedEvents = s.closedEvents := by
  obtain ⟨cap, buf, cc, cl, ev, fc⟩ := s
  cases buf with
  | nil =>
      cases cc <;> cases fres <;> simp [acquire, liftFactory]
  | cons r rest => simp [acquire]

/-- A successful `release` never changes the capacity or the flags. -/
theorem release_preserves (rclose : Resource → Except Nat Unit)
    (s : PoolState) (r : Resource) (t : PoolState)
    (h : release rclose s r = some t) :
    t.capacity = s.capacity ∧ t.closed = s.closed ∧
    t.chanClosed = s.chanClosed := by
  obtain ⟨cap, buf, cc, cl, ev, fc⟩ := s
  cases cl
  · cases cc
    · by_cases hlen : buf.length < cap <;>
        simp [release, hlen] at h <;> simp [← h]
    · simp [release] at h
  · simp [release, resClose] at h
    simp [← h]

/-- C1: on a pool that is not yet closed, `Close` sets the closed flag,
marks the channel closed before the drain runs, empties the buffer, and
invokes `Close()` exactly once on every resource that was idle (its close
count rises by its multiplicity in the buffer; exactly one for a
duplicate-free buffer of not-yet-closed resources). -/
theorem close_drains_idle (rclose : Resource → Except Nat Unit)
    (s : PoolState) (h : s.closed = false) :
    close rclose s =
      { s with closed := true, chanClosed := true, buffer := [],
               closedEvents := s.closedEvents ++ s.buffer } ∧
    close rclose s =
      drainChannel rclose (closeChannel { s with closed := true }) ∧
    (closeChannel { s with closed := true }).chanClosed = true ∧
    (∀ r : Resource, (close rclose s).closedEvents.count r =
        s.closedEvents.count r + s.buffer.count r) ∧
    (s.buffer.Nodup → ∀ r ∈ s.buffer, r ∉ s.closedEvents →
        (close rclose s).closedEvents.count r = 1) := by
  have hc : close rclose s =
      { s with closed := true, chanClosed := true, buffer := [],
               closedEvents := s.closedEvents ++ s.buffer } := by
    simp [close, h, drainChannel, closeChannel, drainAll_eq]
  refine ⟨hc, by simp [close, h], rfl, ?_, ?_⟩
  · intro r
    simp [hc, List.count_append]
  · intro hnd r hmem hnotev
    simp [hc, List.count_append, List.count_eq_zero.mpr hnotev,
      List.count_eq_one_of_mem hnd hmem]

/-- Witness for C1 at a concrete open pool holding two idle resources. -/
theorem close_drains_idle_witness :
    ({ capacity := 2, buffer := [4, 5], chanClosed := false, closed := false,
       closedEvents := [], factoryCalls := 0 } : PoolState).closed = false ∧
    (close noFailClose
      { capacity := 2, buffer := [4, 5], chanClosed := false, closed := false,
        closedEvents := [], factoryCalls := 0 }).closedEvents.count 4 = 1 :=
  ⟨rfl,
    (close_drains_idle noFailClose
      { capacity := 2, buffer := [4, 5], chanClosed := false, closed := false,
        closedEvents := [], factoryCalls := 0 } rfl).2.2.2.2
      (by decide) 4 (by decide) (by decide)⟩

/-- C2: once the channel is closed and the buffer is empty, `Acquire`
returns `ErrPoolClosed`, leaves the state unchanged and does not invoke
the factory. -/
theorem acquire_after_close_empty (s : PoolState)
    (fres : Except Nat Resource)
    (h1 : s.buffer = []) (h2 : s.chanClosed = true) :
    acquire s fres = (Except.error AcquireError.poolClosed, s) ∧
    (acquire s fres).2.factoryCalls = s.factoryCalls := by
  obtain ⟨cap, buf, cc, cl, ev, fc⟩ := s
  simp only at h1 h2
  subst h1; subst h2
  simp [acquire]

/-- Witness for C2 on a concrete closed, drained pool. -/
theorem acquire_after_close_empty_witness :
    acquire
      { capacity := 1, buffer := [], chanClosed := true, closed := true,
        closedEvents := [], factoryCalls := 0 } (Except.ok 3) =
      (Except.error AcquireError.poolClosed,
        { capacity := 1, buffer := [], chanClosed := true, closed := true,
          closedEvents := [], factoryCalls := 0 }) :=
  (acquire_after_close_empty
    { capacity := 1, buffer := [], chanClosed := true, closed := true,
      closedEvents := [], factoryCalls := 0 } (Except.ok 3) rfl rfl).1

/-- C3: on an open pool, `Acquire` pops and returns the oldest buffered
resource when one is idle, and otherwise calls the factory synchronously
and returns its resource-or-error result verbatim (counted by
`factoryCalls`); the embedding `liftFactory` is the identity on both
components. -/
theorem acquire_open_reuse_or_manufacture (s : PoolState)
    (fres : Except Nat Resource)
    (h1 : s.closed = false) (h2 : s.chanClosed = false) :
    (∀ r rest, s.buffer = r :: rest →
        acquire s fres = (Except.ok r, { s with buffer := rest })) ∧
    (s.buffer = [] →
        acquire s fres =
          (liftFactory fres,
            { s with factoryCalls := s.factoryCalls + 1 })) ∧
    (∀ r : Resource, liftFactory (Except.ok r) = Except.ok r) ∧
    (∀ e : Nat, liftFactory (Except.error e) =
        Except.error (AcquireError.factoryError e)) := by
  obtain ⟨cap, buf, cc, cl, ev, fc⟩ := s
  simp only at h2
  subst h2
  refine ⟨?_, ?_, fun r => rfl, fun e => rfl⟩
  · intro r rest hb
    simp only at hb
    subst hb
    simp [acquire]
  · intro hb
    simp only at hb
    subst hb
    simp [acquire]

/-- Witness for C3: reuse path on a concrete open pool with one idle
resource. -/
theorem acquire_open_reuse_or_manufacture_witness :
    acquire
      { capacity := 1, buffer := [7], chanClosed := false, closed := false,
        closedEvents := [], factoryCalls := 0 } (Except.ok 9) =
      (Except.ok 7,
        { capacity := 1, buffer := [], chanClosed := false, closed := false,
          closedEvents := [], factoryCalls := 0 }) :=
  (acquire_open_reuse_or_manufacture
    { capacity := 1, buffer := [7], chanClosed := false, closed := false,
      closedEvents := [], factoryCalls := 0 } (Except.ok 9) rfl rfl).1
    7 [] rfl

/-- C7: `New` fails with the invalid-configuration error exactly when the
requested capacity is `<= 0` (a `uint`, hence zero), and for a positive
capacity returns a pool of that capacity with an empty buffer, open flags
and zero factory invocations. -/
theorem new_validates_capacity (size : Nat) :
    (new size = Except.error NewError.invalidConfiguration ↔ size ≤ 0) ∧
    (0 < size → new size = Except.ok
      { capacity := size, buffer := [], chanClosed := false, closed := false,
        closedEvents := [], factoryCalls := 0 }) := by
  by_cases hsz : size ≤ 0
  · constructor
    · simp [new, hsz]
    · intro hpos
      omega
  · constructor
    · simp [new, hsz]
    · intro _
      simp [new, hsz]

/-- Witness for C7 at capacity 1. -/
theorem new_validates_capacity_witness :
    new 1 = Except.ok
      { capacity := 1, buffer := [], chanClosed := false, closed := false,
        closedEvents := [], factoryCalls := 0 } :=
  (new_validates_capacity 1).2 (by decide)

/-- C4: when the closed flag is set, `Release` invokes the resource's
`Close()` exactly once (its close count rises by one) and never touches
the buffer. -/
theorem release_after_close_discards (rclose : Resource → Except Nat Unit)
    (s : PoolState) (r : Resource) (h : s.closed = true) :
    release rclose s r =
      some { s with closedEvents := s.closedEvents ++ [r] } ∧
    ({ s with closedEvents := s.closedEvents ++ [r] } : PoolState).buffer =
      s.buffer ∧
    (s.closedEvents ++ [r]).count r = s.closedEvents.count r + 1 := by
  refine ⟨by simp [release, h, resClose], rfl, ?_⟩
  simp [List.count_append]

/-- Witness for C4 on a concrete closed pool. -/
theorem release_after_close_discards_witness :
    release noFailClose
      { capacity := 1, buffer := [], chanClosed := true, closed := true,
        closedEvents := [], factoryCalls := 0 } 8 =
      some { capacity := 1, buffer := [], chanClosed := true, closed := true,
             closedEvents := [8], factoryCalls := 0 } :=
  (release_after_close_discards noFailClose
    { capacity := 1, buffer := [], chanClosed := true, closed := true,
      closedEvents := [], factoryCalls := 0 } 8 rfl).1

/-- C5: on an open pool, `Release` enqueues the resource while the buffer
has spare capacity and otherwise closes it exactly once, leaving the
buffer at capacity; in particular three sequential releases into a fresh
pool of capacity 2 buffer the first two resources and close the third
exactly once. -/
theorem release_open_enqueue_or_discard (rclose : Resource → Except Nat Unit)
    (s : PoolState) (r : Resource)
    (h1 : s.closed = false) (h2 : s.chanClosed = false) :
    (s.buffer.length < s.capacity →
        release rclose s r = some { s with buffer := s.buffer ++ [r] }) ∧
    (¬ s.buffer.length < s.capacity →
        release rclose s r =
          some { s with closedEvents := s.closedEvents ++ [r] }) ∧
    Option.bind
        (Option.bind
          (Option.bind (new 2).toOption (fun s0 => release rclose s0 0))
          (fun s1 => release rclose s1 1))
        (fun s2 => release rclose s2 2) =
      some { capacity := 2, buffer := [0, 1], chanClosed := false,
             closed := false, closedEvents := [2], factoryCalls := 0 } := by
  refine ⟨?_, ?_, rfl⟩
  · intro hlen
    simp [release, h1, h2, hlen]
  · intro hlen
    simp [release, h1, h2, hlen, resClose]

/-- Witness for C5: enqueue into a concrete open pool with spare
capacity. -/
theorem release_open_enqueue_or_discard_witness :
    release noFailClose
      { capacity := 2, buffer := [], chanClosed := false, closed := false,
        closedEvents := [], factoryCalls := 0 } 0 =
      some { capacity := 2, buffer := [0], chanClosed := false,
             closed := false, closedEvents := [], factoryCalls := 0 } :=
  (release_open_enqueue_or_discard noFailClose
    { capacity := 2, buffer := [], chanClosed := false, closed := false,
      closedEvents := [], factoryCalls := 0 } 0 rfl rfl).1 (by decide)

/-- C6: `Close` on an already-closed pool is a no-op: the state — flag,
buffer and close trace — is returned unchanged, so no resource is closed
a second time. -/
theorem close_idempotent (rclose : Resource → Except Nat Unit)
    (s : PoolState) (h : s.closed = true) :
    close rclose s = s := by
  simp [close, h]

/-- Witness for C6 on the concrete state a completed `Close` leaves
behind. -/
theorem close_idempotent_witness :
    close noFailClose
      { capacity := 2, buffer := [], chanClosed := true, closed := true,
        closedEvents := [4, 5], factoryCalls := 0 } =
      { capacity := 2, buffer := [], chanClosed := true, closed := true,
        closedEvents := [4, 5], factoryCalls := 0 } :=
  close_idempotent noFailClose
    { capacity := 2, buffer := [], chanClosed := true, closed := true,
      closedEvents := [4, 5], factoryCalls := 0 } rfl

/-- C8: disposal errors are invisible to the pool's caller: both
`Release` and `Close` produce identical results under any two
resource-close error behaviours, and on a not-yet-closed pool the drain
invokes `Close()` on every buffered resource regardless of earlier
failures. -/
theorem disposal_errors_absorbed (s : PoolState) (r : Resource)
    (rclose rclose' : Resource → Except Nat Unit) :
    release rclose s r = release rclose' s r ∧
    close rclose s = close rclose' s ∧
    (s.closed = false → ∀ x ∈ s.buffer,
        x ∈ (close rclose s).closedEvents) := by
  refine ⟨by simp [release, resClose], ?_, ?_⟩
  · by_cases h : s.closed = true
    · simp [close, h]
    · simp only [Bool.not_eq_true] at h
      simp [close, h, drainChannel, closeChannel, drainAll_eq]
  · intro h x hx
    simp [close, h, drainChannel, closeChannel, drainAll_eq]
    exact Or.inr hx

/-- Witness for C8: an always-failing resource close produces the same
pool behaviour as an always-succeeding one, and the drain still reaches
every buffered resource. -/
theorem disposal_errors_absorbed_witness :
    release alwaysFailClose
      { capacity := 2, buffer := [0, 1], chanClosed := false,
        closed := false, closedEvents := [], factoryCalls := 0 } 5 =
      release noFailClose
        { capacity := 2, buffer := [0, 1], chanClosed := false,
          closed := false, closedEvents := [], factoryCalls := 0 } 5 ∧
    close alwaysFailClose
      { capacity := 2, buffer := [0, 1], chanClosed := false,
        closed := false, closedEvents := [], factoryCalls := 0 } =
      close noFailClose
        { capacity := 2, buffer := [0, 1], chanClosed := false,
          closed := false, closedEvents := [], factoryCalls := 0 } ∧
    0 ∈ (close alwaysFailClose
      { capacity := 2, buffer := [0, 1], chanClosed := false,
        closed := false, closedEvents := [],
        factoryCalls := 0 }).closedEvents :=
  ⟨(disposal_errors_absorbed
      { capacity := 2, buffer := [0, 1], chanClosed := false,
        closed := false, closedEvents := [], factoryCalls := 0 } 5
      alwaysFailClose noFailClose).1,
   (disposal_errors_absorbed
      { capacity := 2, buffer := [0, 1], chanClosed := false,
        closed := false, closedEvents := [], factoryCalls := 0 } 5
      alwaysFailClose noFailClose).2.1,
   (disposal_errors_absorbed
      { capacity := 2, buffer := [0, 1], chanClosed := false,
        closed := false, closedEvents := [], factoryCalls := 0 } 5
      alwaysFailClose noFailClose).2.2 rfl 0 (by decide)⟩

/-- Computation rule for `acquire` on a non-empty buffer. -/
theorem acquire_cons (s : PoolState) (r : Resource) (rest : List Resource)
    (fres : Except Nat Resource) (h : s.buffer = r :: rest) :
    acquire s fres = (Except.ok r, { s with buffer := rest }) := by
  obtain ⟨cap, buf, cc, cl, ev, fc⟩ := s
  simp only at h
  subst h
  simp [acquire]

/-- C9 counterexample: the round-trip claim fails when other resources
remain buffered.  Through the API: a fresh pool of capacity 2 receives
resources 0 and 1; acquiring yields 0 and leaves 1 buffered; releasing 0
back (spare capacity, no intervening activity) and re-acquiring yields
the FIFO head 1, not the released instance 0, even though the reuse path
was taken. -/
theorem roundtrip_same_instance_cex :
    new 2 = Except.ok
      { capacity := 2, buffer := [], chanClosed := false, closed := false,
        closedEvents := [], factoryCalls := 0 } ∧
    release noFailClose
      { capacity := 2, buffer := [], chanClosed := false, closed := false,
        closedEvents := [], factoryCalls := 0 } 0 =
      some { capacity := 2, buffer := [0], chanClosed := false,
             closed := false, closedEvents := [], factoryCalls := 0 } ∧
    release noFailClose
      { capacity := 2, buffer := [0], chanClosed := false, closed := false,
        closedEvents := [], factoryCalls := 0 } 1 =
      some { capacity := 2, buffer := [0, 1], chanClosed := false,
             closed := false, closedEvents := [], factoryCalls := 0 } ∧
    acquire
      { capacity := 2, buffer := [0, 1], chanClosed := false,
        closed := false, closedEvents := [], factoryCalls := 0 }
      (Except.ok 99) =
      (Except.ok 0,
        { capacity := 2, buffer := [1], chanClosed := false, closed := false,
          closedEvents := [], factoryCalls := 0 }) ∧
    ([1] : List Resource).length < 2 ∧
    release noFailClose
      { capacity := 2, buffer := [1], chanClosed := false, closed := false,
        closedEvents := [], factoryCalls := 0 } 0 =
      some { capacity := 2, buffer := [1, 0], chanClosed := false,
             closed := false, closedEvents := [], factoryCalls := 0 } ∧
    acquire
      { capacity := 2, buffer := [1, 0], chanClosed := false,
        closed := false, closedEvents := [], factoryCalls := 0 }
      (Except.ok 99) =
      (Except.ok 1,
        { capacity := 2, buffer := [0], chanClosed := false, closed := false,
          closedEvents := [], factoryCalls := 0 }) ∧
    (1 : Resource) ≠ 0 :=
  ⟨rfl, rfl, rfl, rfl, by decide, rfl, rfl, by decide⟩

/-- C9 amended: a resource acquired from an open pool, released while the
buffer is empty (so it becomes the only buffered resource), then
re-acquired with no intervening activity, is the same resource instance;
the reuse path is taken and the factory is not invoked by the second
acquire. -/
theorem roundtrip_reuse_amended (s s1 s2 : PoolState) (r : Resource)
    (fres fres' : Except Nat Resource)
    (rclose : Resource → Except Nat Unit)
    (h1 : s.closed = false) (h2 : s.chanClosed = false)
    (hcap : 0 < s.capacity)
    (hacq : acquire s fres = (Except.ok r, s1))
    (hempty : s1.buffer = [])
    (hrel : release rclose s1 r = some s2) :
    (acquire s2 fres').1 = Except.ok r ∧
    (acquire s2 fres').2.factoryCalls = s2.factoryCalls := by
  have hs1 : s1 = (acquire s fres).2 := by rw [hacq]
  obtain ⟨hpcap, hpcl, hpcc, _⟩ := acquire_preserves s fres
  have h1' : s1.closed = false := by rw [hs1, hpcl]; exact h1
  have h2' : s1.chanClosed = false := by rw [hs1, hpcc]; exact h2
  have hcap' : 0 < s1.capacity := by rw [hs1, hpcap]; exact hcap
  have hlen : s1.buffer.length < s1.capacity := by
    rw [hempty]; exact hcap'
  rw [release, h1', h2'] at hrel
  simp only [Bool.false_eq_true, if_false, hlen, if_true] at hrel
  have hs2 := Option.some.inj hrel
  have hb2 : s2.buffer = [r] := by
    rw [← hs2]
    simp [hempty]
  rw [acquire_cons s2 r [] fres' hb2]
  exact ⟨rfl, rfl⟩

/-- Witness for the amended C9 on a concrete pool holding one idle
resource. -/
theorem roundtrip_reuse_amended_witness :
    (acquire
      { capacity := 1, buffer := [5], chanClosed := false, closed := false,
        closedEvents := [], factoryCalls := 0 } (Except.ok 99)).1 =
      Except.ok 5 ∧
    (acquire
      { capacity := 1, buffer := [5], chanClosed := false, closed := false,
        closedEvents := [], factoryCalls := 0 } (Except.ok 99)).2.factoryCalls
      = 0 :=
  roundtrip_reuse_amended
    { capacity := 1, buffer := [5], chanClosed := false, closed := false,
      closedEvents := [], factoryCalls := 0 }
    { capacity := 1, buffer := [], chanClosed := false, closed := false,
      closedEvents := [], factoryCalls := 0 }
    { capacity := 1, buffer := [5], chanClosed := false, closed := false,
      closedEvents := [], factoryCalls := 0 }
    5 (Except.ok 99) (Except.ok 99) noFailClose
    rfl rfl (by decide) rfl rfl rfl

/-- In every reachable state, a closed channel implies the closed flag:
the two are only ever set together, under the mutex, by `Close`. -/
theorem reachable_inv (s : PoolState) (h : Reachable s) :
    s.chanClosed = true → s.closed = true := by
  induction h with
  | init size s hnew =>
      unfold new at hnew
      split at hnew
      · simp at hnew
      · injection hnew with hlit
        subst hlit
        intro hcc
        simp at hcc
  | stepAcquire s fres hr ih =>
      obtain ⟨_, hcl, hcc, _⟩ := acquire_preserves s fres
      rw [hcl, hcc]
      exact ih
  | stepRelease s rclose r t hr hrel ih =>
      obtain ⟨_, hcl, hcc⟩ := release_preserves rclose s r t hrel
      rw [hcl, hcc]
      exact ih
  | stepClose s rclose hr ih =>
      by_cases hcl : s.closed = true
      · have hc : close rclose s = s := by simp [close, hcl]
        rw [hc]
        exact ih
      · simp only [Bool.not_eq_true] at hcl
        intro _
        simp [close, hcl, drainChannel, closeChannel]

/-- C10: `Release` never sends on a closed channel.  In every state
reachable through the API, a closed channel implies the closed flag, so
the guard in `Release` makes the panicking branch unreachable and
`release` always returns a state. -/
theorem release_never_panics (s : PoolState) (h : Reachable s) :
    (s.chanClosed = true → s.closed = true) ∧
    ∀ (rclose : Resource → Except Nat Unit) (r : Resource),
      (release rclose s r).isSome = true := by
  refine ⟨reachable_inv s h, ?_⟩
  intro rclose r
  by_cases hcl : s.closed = true
  · simp [release, hcl]
  · simp only [Bool.not_eq_true] at hcl
    have hcc : s.chanClosed = false := by
      cases hcc2 : s.chanClosed
      · rfl
      · have hfalse := reachable_inv s h hcc2
        rw [hcl] at hfalse
        exact absurd hfalse (by simp)
    by_cases hlen : s.buffer.length < s.capacity <;>
      simp [release, hcl, hcc, hlen]

/-- Witness for C10 on a freshly constructed pool. -/
theorem release_never_panics_witness :
    (release noFailClose
      { capacity := 1, buffer := [], chanClosed := false, closed := false,
        closedEvents := [], factoryCalls := 0 } 3).isSome = true :=
  (release_never_panics
    { capacity := 1, buffer := [], chanClosed := false, closed := false,
      closedEvents := [], factoryCalls := 0 }
    (Reachable.init 1 _ rfl)).2 noFailClose 3

end PoolSpec
